import Mathlib

/-!
Shallow embedding of the marker-to-diagram rendering core of the
atenta-haisen repository.

The embedded code:
* `handleImageClick` — the manual placement controller from
  `src/components/ImageGeneratorTool.tsx` (normalization, shift-snap,
  commit, auto-advance), as a pure state-transition function.
* `drawWiringOnCanvas` — the 3-point renderer from
  `src/services/geminiService.ts`, producing the canvas as the ordered
  list of drawing operations it performs.
* `drawWiringOnCanvas4` — the 4-point renderer from
  `src/unnamed/part_001`.
* `detectMarkerCoordinates` — the detection boundary from
  `src/services/geminiService.ts` (upstream response handling).
* `generateWiringDiagramsBatch` / `generateManualWiringDiagram` /
  `handleGenerate` — the batch fan-out and the manual-vs-detection
  dispatch from `src/components/ImageGeneratorTool.tsx`.

Numeric values are modelled as rationals (`ℚ`); all the arithmetic the
claims exercise (division by 1000, scaling, absolute differences and
comparisons) is exact at the relevant inputs.
-/

/-- A point `{ x, y }`, used both for normalized (0–1000) coordinates and
for pixel coordinates. -/
structure Pos where
  x : ℚ
  y : ℚ
deriving DecidableEq, Repr

/-- The `MarkerCoordinates` record of the 3-point variant: keys `"1"`,
`"A"`, `"2"`, each `{x, y} | null`.  (TS: `{[key: string]: {x,y} | null}`,
always instantiated with exactly these three keys in the component.) -/
structure MarkerCoordinates where
  m1 : Option Pos
  mA : Option Pos
  m2 : Option Pos
deriving DecidableEq, Repr

/-- Lookup `coords[key]` for the 3-point variant. -/
def MarkerCoordinates.get (c : MarkerCoordinates) (key : String) : Option Pos :=
  if key = "1" then c.m1
  else if key = "A" then c.mA
  else if key = "2" then c.m2
  else none

/-- The spread-update `{ ...prev, [key]: pos }` for the 3-point variant
(the component only ever uses keys `"1"`, `"A"`, `"2"`). -/
def MarkerCoordinates.set (c : MarkerCoordinates) (key : String) (p : Pos) :
    MarkerCoordinates :=
  if key = "1" then { c with m1 := some p }
  else if key = "A" then { c with mA := some p }
  else if key = "2" then { c with m2 := some p }
  else c

/-- The `MarkerCoordinates` record of the 4-point variant
(`src/unnamed/part_001`): keys `"1"`..`"4"`. -/
structure MarkerCoordinates4 where
  m1 : Option Pos
  m2 : Option Pos
  m3 : Option Pos
  m4 : Option Pos
deriving DecidableEq, Repr

/-- Lookup `coords[key]` for the 4-point variant. -/
def MarkerCoordinates4.get (c : MarkerCoordinates4) (key : String) : Option Pos :=
  if key = "1" then c.m1
  else if key = "2" then c.m2
  else if key = "3" then c.m3
  else if key = "4" then c.m4
  else none

/-! ## Manual placement controller (`handleImageClick`,
`src/components/ImageGeneratorTool.tsx`) -/

/-- The component state that `handleImageClick` reads and writes:
`markerCoords` and `activeMarkerId`. -/
structure ClickState where
  markerCoords : MarkerCoordinates
  activeMarkerId : String
deriving DecidableEq, Repr

/-- `handleImageClick` from `src/components/ImageGeneratorTool.tsx`.

`px`, `py` are the pointer coordinates relative to the displayed image
(`e.clientX - rect.left`, `e.clientY - rect.top`); `rectW`, `rectH` the
displayed image's bounding-box size.  Returns the updated state
(new `markerCoords` and `activeMarkerId`).  The early return
`if (!imageRef.current || !activeMarkerId) return` is modelled by the
`activeMarkerId = ""` guard (the image ref is UI plumbing). -/
def handleImageClick (s : ClickState) (rectW rectH px py : ℚ) (shiftKey : Bool) :
    ClickState :=
  if s.activeMarkerId = "" then s
  else
    -- Raw normalized coordinates (0-1000)
    let normalizedX : ℚ := px / rectW * 1000
    let normalizedY : ℚ := py / rectH * 1000
    -- Axis alignment logic (only when SHIFT is pressed)
    let snapped : ℚ × ℚ :=
      if shiftKey then
        let prevPointKey : Option String :=
          if s.activeMarkerId = "A" then some "1"
          else if s.activeMarkerId = "2" then some "A"
          else none
        match prevPointKey with
        | some pk =>
          match s.markerCoords.get pk with
          | some prevPoint =>
            let dx := |normalizedX - prevPoint.x|
            let dy := |normalizedY - prevPoint.y|
            if dx < dy then
              -- Closer to vertical line -> snap X to previous point's X
              (prevPoint.x, normalizedY)
            else
              -- Closer to horizontal line -> snap Y to previous point's Y
              (normalizedX, prevPoint.y)
          | none => (normalizedX, normalizedY)
        | none => (normalizedX, normalizedY)
      else (normalizedX, normalizedY)
    let coords := s.markerCoords.set s.activeMarkerId ⟨snapped.1, snapped.2⟩
    -- Auto-advance logic
    let nextId : String :=
      if s.activeMarkerId = "1" then "A"
      else if s.activeMarkerId = "A" then "2"
      else ""
    { markerCoords := coords
      activeMarkerId := if nextId ≠ "" then nextId else s.activeMarkerId }

/-! ## Renderer (`drawWiringOnCanvas`) -/

/-- One canvas drawing operation, recording the parameters in effect when
the corresponding stroke/fill happens. -/
inductive RenderOp where
  | image
  | segment (p q : Pos) (color : String) (width : ℚ) (dash : List ℚ)
  | markerCircle (center : Pos) (radius : ℚ) (fill : String)
  | markerBorder (center : Pos) (radius width : ℚ) (stroke : String)
  | markerLabel (text : String) (x y fontSize : ℚ)
deriving DecidableEq, Repr

/-- The output raster: canvas dimensions, the ordered list of drawing
operations performed on it, and the encoding format
(`canvas.toDataURL(mimeType)`). -/
structure Raster where
  width : Nat
  height : Nat
  ops : List RenderOp
  mimeType : String
deriving DecidableEq, Repr

/-- Normalized-to-pixel mapping (the renderers' `getPt` arithmetic,
§4.1 `toPixel`): `px = x/1000 * W`, `py = y/1000 * H`. -/
def toPixel (w h : Nat) (p : Pos) : Pos :=
  ⟨p.x / 1000 * w, p.y / 1000 * h⟩

/-- `LineStyle` from `src/services/geminiService.ts`:
`'red-solid' | 'blue-dotted'`. -/
inductive LineStyle where
  | redSolid
  | blueDotted
deriving DecidableEq, Repr

/-- `WiringStyles` from `src/services/geminiService.ts`. -/
structure WiringStyles where
  segment1A : LineStyle
  segmentA2 : LineStyle
deriving DecidableEq, Repr

/-- The default styles value `{ segment1A: 'red-solid', segmentA2: 'blue-dotted' }`. -/
def defaultStyles : WiringStyles :=
  ⟨.redSolid, .blueDotted⟩

/-- The 3-point renderer `drawWiringOnCanvas` from
`src/services/geminiService.ts`, for a base image that decoded to
`w × h` pixels.  The canvas is modelled by its dimensions and the ordered
list of drawing operations: base image first, then segments 1–A and A–2
(each only when both endpoints are present), then the marker glyphs in
key order `"1", "A", "2"`. -/
def drawWiringOnCanvas (w h : Nat) (coords : MarkerCoordinates)
    (styles : WiringStyles) (mimeType : String) : Raster :=
  let getPt : String → Option Pos := fun key =>
    match coords.get key with
    | none => none
    | some c => some ⟨c.x / 1000 * w, c.y / 1000 * h⟩
  let p1 := getPt "1"
  let pA := getPt "A"
  let p2 := getPt "2"
  -- Line width proportional to image width (approx 0.5%)
  let baseLineWidth : ℚ := max 1 ((w : ℚ) * 5 / 1000)
  let strokeColor : LineStyle → String := fun style =>
    match style with
    | .redSolid => "rgb(220, 38, 38)"
    | .blueDotted => "rgb(37, 99, 235)"
  let lineDash : LineStyle → List ℚ := fun style =>
    match style with
    | .redSolid => []
    | .blueDotted =>
      let dashSize : ℚ := max 2 ((w : ℚ) * 12 / 1000)
      [dashSize, dashSize]
  let seg1A : List RenderOp :=
    match p1, pA with
    | some a, some b =>
      [.segment a b (strokeColor styles.segment1A) baseLineWidth (lineDash styles.segment1A)]
    | _, _ => []
  let segA2 : List RenderOp :=
    match pA, p2 with
    | some a, some b =>
      [.segment a b (strokeColor styles.segmentA2) baseLineWidth (lineDash styles.segmentA2)]
    | _, _ => []
  let markerKeys : List String := ["1", "A", "2"]
  -- Responsive marker size: radius 1.5% of width, minimum 2px
  let radius : ℚ := max 2 ((w : ℚ) * 15 / 1000)
  let fontSize : ℚ := radius * 11 / 10
  let glyphs : List RenderOp :=
    markerKeys.flatMap fun key =>
      match getPt key with
      | some pt =>
        [.markerCircle pt radius "#FACC15",
         .markerBorder pt radius (max (1 / 2) (radius * 2 / 10)) "#CA8A04",
         .markerLabel key pt.x (pt.y + fontSize * 8 / 100) fontSize]
      | none => []
  { width := w
    height := h
    ops := .image :: (seg1A ++ segA2 ++ glyphs)
    mimeType := mimeType }

/-- The 4-point renderer `drawWiringOnCanvas` from `src/unnamed/part_001`:
base image, then segment 1–2 (red solid) and segment 3–4 (blue dashed),
each only when both endpoints are present.  It draws no marker glyphs. -/
def drawWiringOnCanvas4 (w h : Nat) (coords : MarkerCoordinates4)
    (mimeType : String) : Raster :=
  let getPt : String → Option Pos := fun key =>
    match coords.get key with
    | none => none
    | some c => some ⟨c.x / 1000 * w, c.y / 1000 * h⟩
  let p1 := getPt "1"
  let p2 := getPt "2"
  let p3 := getPt "3"
  let p4 := getPt "4"
  let seg12 : List RenderOp :=
    match p1, p2 with
    | some a, some b =>
      [.segment a b "rgb(255, 0, 0)" (max 3 ((w : ℚ) * 5 / 1000)) []]
    | _, _ => []
  let seg34 : List RenderOp :=
    match p3, p4 with
    | some a, some b =>
      let dashSize : ℚ := max 5 ((w : ℚ) * 10 / 1000)
      [.segment a b "rgb(0, 0, 255)" (max 3 ((w : ℚ) * 5 / 1000)) [dashSize, dashSize]]
    | _, _ => []
  { width := w
    height := h
    ops := .image :: (seg12 ++ seg34)
    mimeType := mimeType }

/-- The endpoints of a segment operation, `none` for any other operation. -/
def RenderOp.endpoints : RenderOp → Option (Pos × Pos) :=
  fun op =>
    match op with
    | .segment p q _ _ _ => some (p, q)
    | _ => none

/-- The line segments a raster draws, in drawing order. -/
def Raster.segmentEndpoints (r : Raster) : List (Pos × Pos) :=
  r.ops.filterMap RenderOp.endpoints

/-- Whether an operation is part of a marker glyph (filled circle, border
ring, or label). -/
def RenderOp.isGlyph : RenderOp → Bool :=
  fun op =>
    match op with
    | .markerCircle _ _ _ => true
    | .markerBorder _ _ _ _ => true
    | .markerLabel _ _ _ _ => true
    | _ => false

/-! ## Detection boundary (`detectMarkerCoordinates`) -/

/-- A JSON value, as produced by the host primitive `JSON.parse`. -/
inductive Json where
  | null
  | bool (b : Bool)
  | num (q : ℚ)
  | str (s : String)
  | arr (elems : List Json)
  | obj (fields : List (String × Json))

/-- `detectMarkerCoordinates` from `src/services/geminiService.ts`, at the
upstream boundary.  `upstream` stands for the outcome of the
`ai.models.generateContent` call combined with the host primitive
`JSON.parse` applied to `response.text`:
`.error e` — the upstream call rejected with error `e` (propagated);
`.ok none` — the call succeeded but `response.text` is absent or empty
  (the code throws "No response from AI");
`.ok (some none)` — text present but not valid JSON, `JSON.parse` throws
  (the code throws "AI returned invalid JSON");
`.ok (some (some j))` — text present and parses to the JSON value `j`,
  which the code returns without any further shape validation. -/
def detectMarkerCoordinates (upstream : Except String (Option (Option Json))) :
    Except String Json :=
  match upstream with
  | .error e => .error e
  | .ok none => .error "No response from AI"
  | .ok (some none) => .error "AI returned invalid JSON"
  | .ok (some (some j)) => .ok j

/-- Whether a JSON value is a well-formed `{x, y}` position or `null`
(the value shape required of each entry of a marker map). -/
def isCoordJson : Json → Bool
  | .null => true
  | .obj fields =>
    match fields with
    | [(xk, .num _), (yk, .num _)] => xk == "x" && yk == "y"
    | _ => false
  | _ => false

/-- The marker-map shape of the detector contract (§6): a JSON object
keyed exactly by the variant's fixed textual marker identities, each
value either `null` or an `{x, y}` object with numeric fields. -/
def isMarkerMapShape (keys : List String) : Json → Bool
  | .obj fields =>
    (fields.map Prod.fst == keys) && fields.all fun kv => isCoordJson kv.2
  | _ => false

/-! ## Batch fan-out and generation dispatch -/

/-- `Promise.all` over the already-settled outcomes of the launched
promises, in array order: the first rejection (in order) rejects the
whole aggregate, otherwise all fulfilled values are collected in order. -/
def promiseAll {α : Type} : List (Except String α) → Except String (List α)
  | [] => .ok []
  | p :: rest =>
    match p with
    | .error e => .error e
    | .ok a =>
      match promiseAll rest with
      | .error e => .error e
      | .ok xs => .ok (a :: xs)

/-- `generateWiringDiagramsBatch` from `src/services/geminiService.ts`:
`count` independent detection calls, each followed by a render of its own
result, aggregated with `Promise.all`.  `detections` lists the outcomes
of the `count` individual `detectMarkerCoordinates` calls (the upstream
detector is non-deterministic, so they are inputs here); a successful
detection's coordinates are rendered by `drawWiringOnCanvas`. -/
def generateWiringDiagramsBatch (w h : Nat) (mimeType : String)
    (styles : WiringStyles)
    (detections : List (Except String MarkerCoordinates)) :
    Except String (List Raster) :=
  promiseAll (detections.map fun d =>
    match d with
    | .error e => .error e
    | .ok coords => .ok (drawWiringOnCanvas w h coords styles mimeType))

/-- `generateManualWiringDiagram` from `src/services/geminiService.ts`:
direct drawing with the provided coordinates, bypassing AI detection. -/
def generateManualWiringDiagram (w h : Nat) (mimeType : String)
    (coords : MarkerCoordinates) (styles : WiringStyles) : Raster :=
  drawWiringOnCanvas w h coords styles mimeType

/-- `Object.values(markerCoords).some(v => v !== null)` from
`handleGenerate` in `src/components/ImageGeneratorTool.tsx`. -/
def hasManualMarkers (c : MarkerCoordinates) : Bool :=
  [c.m1, c.mA, c.m2].any Option.isSome

/-- The outcome of one generation request: the produced rasters (or the
surfaced error) and how many AI detection calls were issued. -/
structure GenerateOutcome where
  results : Except String (List Raster)
  detectionCalls : Nat

/-- The dispatch core of `handleGenerate`
(`src/components/ImageGeneratorTool.tsx`): if any manual marker is set,
a single raster is produced from the manual map with no detection call;
otherwise a 3-call detection batch runs.  `det1 det2 det3` are the
outcomes the three detection calls would deliver. -/
def handleGenerate (w h : Nat) (mimeType : String) (c : MarkerCoordinates)
    (det1 det2 det3 : Except String MarkerCoordinates) : GenerateOutcome :=
  if hasManualMarkers c then
    { results := .ok [generateManualWiringDiagram w h mimeType c defaultStyles]
      detectionCalls := 0 }
  else
    { results := generateWiringDiagramsBatch w h mimeType defaultStyles [det1, det2, det3]
      detectionCalls := 3 }

/-- The fixed predecessor chain of the 3-point variant, as assigned to
`prevPointKey` inside `handleImageClick`: `"A"`'s predecessor is `"1"`,
`"2"`'s predecessor is `"A"`, `"1"` has none. -/
def predecessorOf (id : String) : Option String :=
  if id = "A" then some "1"
  else if id = "2" then some "A"
  else none

theorem MarkerCoordinates.get_set_same (c : MarkerCoordinates) (key : String) (p : Pos)
    (h : key = "1" ∨ key = "A" ∨ key = "2") :
    (c.set key p).get key = some p := by
  rcases h with h | h | h <;> subst h <;>
    simp +decide [MarkerCoordinates.get, MarkerCoordinates.set]

theorem MarkerCoordinates.get_set_other (c : MarkerCoordinates) (key k : String) (p : Pos)
    (h : k ≠ key) : (c.set key p).get k = c.get k := by
  unfold MarkerCoordinates.set MarkerCoordinates.get
  split_ifs <;> simp_all

/-- Claim C4: for every shift-click placement whose active marker has a
predecessor with a defined position, with `dx = |nx - pred.x|` and
`dy = |ny - pred.y|` on the raw normalized click `(nx, ny)`: if `dx < dy`
the committed x is the predecessor's x (y is the raw ny); otherwise —
including the tie `dx = dy` — the committed y is the predecessor's y
(x is the raw nx). -/
theorem handleImageClick_snapRule (s : ClickState) (rectW rectH px py : ℚ)
    (pk : String) (pred : Pos)
    (hpk : predecessorOf s.activeMarkerId = some pk)
    (hpred : s.markerCoords.get pk = some pred) :
    (handleImageClick s rectW rectH px py true).markerCoords.get s.activeMarkerId =
      some (if |px / rectW * 1000 - pred.x| < |py / rectH * 1000 - pred.y| then
              ⟨pred.x, py / rectH * 1000⟩
            else ⟨px / rectW * 1000, pred.y⟩) := by
  have hA2 : s.activeMarkerId = "A" ∧ pk = "1" ∨ s.activeMarkerId = "2" ∧ pk = "A" := by
    unfold predecessorOf at hpk
    by_cases h1 : s.activeMarkerId = "A"
    · simp [h1] at hpk
      exact Or.inl ⟨h1, hpk.symm⟩
    · by_cases h2 : s.activeMarkerId = "2"
      · simp [h1, h2] at hpk
        exact Or.inr ⟨h2, hpk.symm⟩
      · simp [h1, h2] at hpk
  by_cases hlt : |px / rectW * 1000 - pred.x| < |py / rectH * 1000 - pred.y| <;>
    rcases hA2 with ⟨ha, hk⟩ | ⟨ha, hk⟩ <;> subst hk <;>
      simp +decide [MarkerCoordinates.get] at hpred <;>
      simp +decide [handleImageClick, ha, hpred, hlt,
        MarkerCoordinates.get, MarkerCoordinates.set]

/-- Witness for C4's theorem at a concrete input: predecessor `"1"` at
`(500, 500)`, shift-click at raw normalized `(520, 495)` (dx = 20 > dy = 5)
commits `(520, 500)`. -/
theorem handleImageClick_snapRule_witness :
    (handleImageClick ⟨⟨some ⟨500, 500⟩, none, none⟩, "A"⟩ 1000 1000 520 495 true).markerCoords.get "A" =
      some ⟨520, 500⟩ := by
  have h := handleImageClick_snapRule ⟨⟨some ⟨500, 500⟩, none, none⟩, "A"⟩ 1000 1000 520 495 "1"
    ⟨500, 500⟩ (by norm_num +decide [predecessorOf]) (by norm_num +decide [MarkerCoordinates.get])
  rw [h]
  norm_num

/-- Claim C1 counterexample: with predecessor `"1"` at `(500, 500)` and
active marker `"A"`, a shift-click at raw normalized `(520, 480)` does
not commit `(500, 480)`, and one at `(520, 495)` does not commit
`(500, 495)` (both commit `(520, 500)`: the tie and the `dx > dy` case
take the horizontal snap `ny := pred.y`). -/
theorem snapExamples_counterexample :
    (handleImageClick ⟨⟨some ⟨500, 500⟩, none, none⟩, "A"⟩ 1000 1000 520 480 true).markerCoords.get "A" ≠
        some ⟨500, 480⟩ ∧
    (handleImageClick ⟨⟨some ⟨500, 500⟩, none, none⟩, "A"⟩ 1000 1000 520 495 true).markerCoords.get "A" ≠
        some ⟨500, 495⟩ := by
  constructor <;> norm_num +decide [handleImageClick, MarkerCoordinates.get, MarkerCoordinates.set]

/-- Claim C1 (amended): for the manual placement snap with predecessor at
`(500, 500)`: a shift-click at raw normalized `(520, 480)` (dx = 20,
dy = 20, a tie) commits `(520, 500)` (horizontal snap: y forced to the
predecessor's y), and a shift-click at `(520, 495)` (dx = 20 > dy = 5)
also commits `(520, 500)`. -/
theorem snapExamples_amended :
    (handleImageClick ⟨⟨some ⟨500, 500⟩, none, none⟩, "A"⟩ 1000 1000 520 480 true).markerCoords.get "A" =
        some ⟨520, 500⟩ ∧
    (handleImageClick ⟨⟨some ⟨500, 500⟩, none, none⟩, "A"⟩ 1000 1000 520 495 true).markerCoords.get "A" =
        some ⟨520, 500⟩ := by
  constructor <;> norm_num +decide [handleImageClick, MarkerCoordinates.get, MarkerCoordinates.set]

/-- Claim C6: each committed placement advances the active marker to the
next identity in the fixed sequence `"1" → "A" → "2"` when one exists and
otherwise leaves it unchanged; concretely, from `activeMarkerId = "1"`
three placements traverse `"1" → "A" → "2"`, a fourth stays at `"2"` and
overwrites `"2"`'s position. -/
theorem autoAdvance_rule :
    (∀ (s : ClickState) (rectW rectH px py : ℚ) (shiftKey : Bool),
      (handleImageClick s rectW rectH px py shiftKey).activeMarkerId =
        if s.activeMarkerId = "1" then "A"
        else if s.activeMarkerId = "A" then "2"
        else s.activeMarkerId) ∧
    (let s0 : ClickState := ⟨⟨none, none, none⟩, "1"⟩
     let s1 := handleImageClick s0 1000 1000 100 100 false
     let s2 := handleImageClick s1 1000 1000 200 100 false
     let s3 := handleImageClick s2 1000 1000 200 300 false
     let s4 := handleImageClick s3 1000 1000 400 400 false
     s1.activeMarkerId = "A" ∧ s2.activeMarkerId = "2" ∧
     s3.activeMarkerId = "2" ∧ s4.activeMarkerId = "2" ∧
     s3.markerCoords.get "2" = some ⟨200, 300⟩ ∧
     s4.markerCoords.get "2" = some ⟨400, 400⟩) := by
  constructor
  · intro s rectW rectH px py shiftKey
    by_cases h0 : s.activeMarkerId = ""
    · simp +decide [handleImageClick, h0]
    · by_cases h1 : s.activeMarkerId = "1"
      · simp +decide [handleImageClick, h0, h1]
      · by_cases h2 : s.activeMarkerId = "A"
        · simp +decide [handleImageClick, h0, h1, h2]
        · simp +decide [handleImageClick, h0, h1, h2]
  · norm_num +decide [handleImageClick, MarkerCoordinates.get, MarkerCoordinates.set]

/-- Claim C7: for every pointer coordinate (any rationals, including
points outside the displayed image whose normalized values leave
`[0, 1000]`), a placement commits a position for the active marker and
leaves every other marker's entry unchanged — previously placed markers
are never auto-cleared. -/
theorem placement_frame (s : ClickState) (rectW rectH px py : ℚ) (shiftKey : Bool)
    (hActive : s.activeMarkerId = "1" ∨ s.activeMarkerId = "A" ∨ s.activeMarkerId = "2") :
    (∃ p : Pos,
      (handleImageClick s rectW rectH px py shiftKey).markerCoords.get s.activeMarkerId = some p) ∧
    (∀ key : String, key ≠ s.activeMarkerId →
      (handleImageClick s rectW rectH px py shiftKey).markerCoords.get key =
        s.markerCoords.get key) := by
  have hne : s.activeMarkerId ≠ "" := by
    rcases hActive with h | h | h <;> simp [h]
  obtain ⟨q, hq⟩ : ∃ q, (handleImageClick s rectW rectH px py shiftKey).markerCoords =
      s.markerCoords.set s.activeMarkerId q := by
    unfold handleImageClick
    rw [if_neg hne]
    exact ⟨_, rfl⟩
  rw [hq]
  constructor
  · exact ⟨q, MarkerCoordinates.get_set_same _ _ _ hActive⟩
  · intro key hkey
    exact MarkerCoordinates.get_set_other _ _ _ _ hkey

/-- Witness for C7's theorem: active marker `"1"`, pointer at
`(150, -20)` on a 100 × 100 displayed image — normalized `(1500, -200)`,
far outside `[0, 1000]` — still commits, and the already placed marker
`"A"` at `(300, 300)` is untouched. -/
theorem placement_frame_witness :
    (∃ p : Pos,
      (handleImageClick ⟨⟨none, some ⟨300, 300⟩, none⟩, "1"⟩ 100 100 150 (-20) false).markerCoords.get "1" =
        some p) ∧
    (handleImageClick ⟨⟨none, some ⟨300, 300⟩, none⟩, "1"⟩ 100 100 150 (-20) false).markerCoords.get "A" =
      some ⟨300, 300⟩ :=
  ⟨(placement_frame ⟨⟨none, some ⟨300, 300⟩, none⟩, "1"⟩ 100 100 150 (-20) false (Or.inl rfl)).1,
   by
    rw [(placement_frame ⟨⟨none, some ⟨300, 300⟩, none⟩, "1"⟩ 100 100 150 (-20) false
      (Or.inl rfl)).2 "A" (by decide)]
    norm_num +decide [MarkerCoordinates.get]⟩

/-- Claim C2: a renderer draws a line segment between two markers iff
both endpoint positions are present in the map (absent endpoints silently
skip the segment), and segments come in the fixed order — 3-point:
1–A then A–2; 4-point: 1–2 then 3–4. -/
theorem segments_drawn (w h : Nat) (c : MarkerCoordinates) (styles : WiringStyles)
    (mimeType : String) (c4 : MarkerCoordinates4) (mt4 : String) :
    ((drawWiringOnCanvas w h c styles mimeType).segmentEndpoints =
      (match c.get "1", c.get "A" with
       | some a, some b => [(toPixel w h a, toPixel w h b)]
       | _, _ => []) ++
      (match c.get "A", c.get "2" with
       | some a, some b => [(toPixel w h a, toPixel w h b)]
       | _, _ => [])) ∧
    ((drawWiringOnCanvas4 w h c4 mt4).segmentEndpoints =
      (match c4.get "1", c4.get "2" with
       | some a, some b => [(toPixel w h a, toPixel w h b)]
       | _, _ => []) ++
      (match c4.get "3", c4.get "4" with
       | some a, some b => [(toPixel w h a, toPixel w h b)]
       | _, _ => [])) := by
  constructor
  · rcases c with ⟨m1, mA, m2⟩
    cases m1 <;> cases mA <;> cases m2 <;> rfl
  · rcases c4 with ⟨n1, n2, n3, n4⟩
    cases n1 <;> cases n2 <;> cases n3 <;> cases n4 <;> rfl

/-- Claim C3 counterexample: in the 4-point variant renderer, even with
all four markers present (here on a 200 × 200 image), no marker glyph
operation — no filled circle, border ring or label — is emitted at all,
contradicting the claim that glyph drawing holds for the 4-point variant. -/
theorem markerGlyphs_counterexample :
    (MarkerCoordinates4.get
        ⟨some ⟨100, 100⟩, some ⟨200, 200⟩, some ⟨300, 300⟩, some ⟨400, 400⟩⟩ "1").isSome = true ∧
    ((drawWiringOnCanvas4 200 200
        ⟨some ⟨100, 100⟩, some ⟨200, 200⟩, some ⟨300, 300⟩, some ⟨400, 400⟩⟩ "image/png").ops.all
      fun op => !op.isGlyph) = true := by
  exact ⟨rfl, rfl⟩

/-- Claim C3 (amended): in the 3-point variant renderer, for every present
marker (iterated in declaration order `"1", "A", "2"`) a filled circle of
radius `max(2, W * 0.015)` at the marker's pixel position, a border ring,
and a centered label with the marker's identity are drawn, all after
(on top of) the background image and every segment; the 4-point variant
renderer draws no marker glyphs. -/
theorem markerGlyphs_drawn (w h : Nat) (c : MarkerCoordinates) (styles : WiringStyles)
    (mimeType : String) (c4 : MarkerCoordinates4) (mt4 : String) :
    ((drawWiringOnCanvas w h c styles mimeType).ops.filter RenderOp.isGlyph =
      ["1", "A", "2"].flatMap fun key =>
        match c.get key with
        | some pos =>
          [RenderOp.markerCircle (toPixel w h pos) (max 2 ((w : ℚ) * 15 / 1000)) "#FACC15",
           RenderOp.markerBorder (toPixel w h pos) (max 2 ((w : ℚ) * 15 / 1000))
             (max (1 / 2) (max 2 ((w : ℚ) * 15 / 1000) * 2 / 10)) "#CA8A04",
           RenderOp.markerLabel key (toPixel w h pos).x
             ((toPixel w h pos).y + max 2 ((w : ℚ) * 15 / 1000) * 11 / 10 * 8 / 100)
             (max 2 ((w : ℚ) * 15 / 1000) * 11 / 10)]
        | none => []) ∧
    ((drawWiringOnCanvas w h c styles mimeType).ops =
      ((drawWiringOnCanvas w h c styles mimeType).ops.filter fun op => !(RenderOp.isGlyph op)) ++
        (drawWiringOnCanvas w h c styles mimeType).ops.filter RenderOp.isGlyph) ∧
    ((drawWiringOnCanvas4 w h c4 mt4).ops.filter RenderOp.isGlyph = []) := by
  refine ⟨?_, ?_, ?_⟩
  · rcases c with ⟨m1, mA, m2⟩
    cases m1 <;> cases mA <;> cases m2 <;> rfl
  · rcases c with ⟨m1, mA, m2⟩
    cases m1 <;> cases mA <;> cases m2 <;> rfl
  · rcases c4 with ⟨n1, n2, n3, n4⟩
    cases n1 <;> cases n2 <;> cases n3 <;> cases n4 <;> rfl

/-- Claim C8: for a base image decoding to positive width and height, the
output raster of each renderer has exactly the input's dimensions. -/
theorem render_dimensions (w h : Nat) (_hw : 0 < w) (_hh : 0 < h)
    (c : MarkerCoordinates) (styles : WiringStyles) (mimeType : String)
    (c4 : MarkerCoordinates4) (mt4 : String) :
    (drawWiringOnCanvas w h c styles mimeType).width = w ∧
    (drawWiringOnCanvas w h c styles mimeType).height = h ∧
    (drawWiringOnCanvas4 w h c4 mt4).width = w ∧
    (drawWiringOnCanvas4 w h c4 mt4).height = h :=
  ⟨rfl, rfl, rfl, rfl⟩

/-- Witness for C8's theorem on a concrete 640 × 480 image. -/
theorem render_dimensions_witness :
    (0 : Nat) < 640 ∧ (0 : Nat) < 480 ∧
    (drawWiringOnCanvas 640 480 ⟨none, none, none⟩ defaultStyles "image/png").width = 640 ∧
    (drawWiringOnCanvas4 640 480 ⟨none, none, none, none⟩ "image/png").height = 480 :=
  ⟨by decide, by decide,
   (render_dimensions 640 480 (by decide) (by decide) ⟨none, none, none⟩ defaultStyles "image/png"
      ⟨none, none, none, none⟩ "image/png").1,
   (render_dimensions 640 480 (by decide) (by decide) ⟨none, none, none⟩ defaultStyles "image/png"
      ⟨none, none, none, none⟩ "image/png").2.2.2⟩

theorem promiseAll_map_ok {α : Type} (xs : List α) :
    promiseAll (xs.map Except.ok) = Except.ok xs := by
  induction xs with
  | nil => rfl
  | cons x rest ih => simp [promiseAll, ih]

theorem promiseAll_firstError {α : Type} (ps : List (Except String α)) (i : Nat) (e : String)
    (hi : i < ps.length) (hie : ps.get ⟨i, hi⟩ = .error e)
    (hok : ∀ (j : Nat) (hj : j < i), ∃ a, ps.get ⟨j, Nat.lt_trans hj hi⟩ = Except.ok a) :
    promiseAll ps = .error e := by
  induction ps generalizing i with
  | nil => exact absurd hi (by simp)
  | cons p rest ih =>
    cases i with
    | zero =>
      simp only [List.get] at hie
      simp [promiseAll, hie]
    | succ i' =>
      obtain ⟨a, ha⟩ := hok 0 (Nat.succ_pos i')
      simp only [List.get] at ha
      have hrest : promiseAll rest = .error e :=
        ih i' (Nat.lt_of_succ_lt_succ hi) hie
          (fun j hj => hok (j + 1) (Nat.succ_lt_succ hj))
      simp [promiseAll, ha, hrest]

/-- Claim C5: the batch operation returns exactly one rendered raster per
detection when all detections succeed (each raster derived from its own
detection's marker map), and fails as a whole with the first error when
any detection fails, yielding zero rasters. -/
theorem batch_allOrNothing (w h : Nat) (mimeType : String) (styles : WiringStyles)
    (detections : List (Except String MarkerCoordinates)) :
    (∀ cs : List MarkerCoordinates, detections = cs.map Except.ok →
      generateWiringDiagramsBatch w h mimeType styles detections =
        .ok (cs.map fun coords => drawWiringOnCanvas w h coords styles mimeType)) ∧
    (∀ (i : Nat) (e : String) (hi : i < detections.length),
      detections.get ⟨i, hi⟩ = .error e →
      (∀ (j : Nat) (hj : j < i), ∃ cj, detections.get ⟨j, Nat.lt_trans hj hi⟩ = .ok cj) →
      generateWiringDiagramsBatch w h mimeType styles detections = .error e) := by
  constructor
  · intro cs hcs
    subst hcs
    unfold generateWiringDiagramsBatch
    have hall := promiseAll_map_ok
      (cs.map fun coords => drawWiringOnCanvas w h coords styles mimeType)
    rw [List.map_map] at hall
    rw [List.map_map]
    exact hall
  · intro i e hi hie hok
    unfold generateWiringDiagramsBatch
    refine promiseAll_firstError _ i e (by simpa using hi) ?_ ?_
    · simp only [List.get_eq_getElem, List.getElem_map]
      simp only [List.get_eq_getElem] at hie
      rw [hie]
    · intro j hj
      obtain ⟨cj, hcj⟩ := hok j hj
      refine ⟨drawWiringOnCanvas w h cj styles mimeType, ?_⟩
      simp only [List.get_eq_getElem, List.getElem_map]
      simp only [List.get_eq_getElem] at hcj
      rw [hcj]

/-- Witness for C5's theorem: a one-element all-success batch yields
exactly one raster; a batch whose first detection fails with "boom"
fails as a whole with "boom". -/
theorem batch_allOrNothing_witness :
    generateWiringDiagramsBatch 10 10 "image/png" defaultStyles
        [Except.ok ⟨none, none, none⟩] =
      .ok [drawWiringOnCanvas 10 10 ⟨none, none, none⟩ defaultStyles "image/png"] ∧
    generateWiringDiagramsBatch 10 10 "image/png" defaultStyles
        [Except.error "boom", Except.ok ⟨none, none, none⟩] = .error "boom" :=
  ⟨(batch_allOrNothing 10 10 "image/png" defaultStyles _).1 [⟨none, none, none⟩] rfl,
   (batch_allOrNothing 10 10 "image/png" defaultStyles _).2 0 "boom" (by decide) rfl
     (fun j hj => absurd hj (Nat.not_lt_zero j))⟩

/-- Claim C9 counterexample: an upstream response whose text is valid
JSON but not the marker-map shape (here the empty array `[]`) makes
detection succeed and return that non-map value — no `DetectionError`
is raised, contradicting the claimed shape validation. -/
theorem detect_shape_counterexample :
    detectMarkerCoordinates (.ok (some (some (Json.arr [])))) = .ok (Json.arr []) ∧
    isMarkerMapShape ["1", "A", "2"] (Json.arr []) = false ∧
    isMarkerMapShape ["1", "2", "3", "4"] (Json.arr []) = false :=
  ⟨rfl, rfl, rfl⟩

/-- Claim C9 (amended): detection fails exactly when the upstream call
errors, the response text is absent, or the text is not valid JSON; a
successful detection returns the parsed JSON value as is, with no
validation against the marker-map shape. -/
theorem detect_error_amended (upstream : Except String (Option (Option Json))) :
    ((∃ e, detectMarkerCoordinates upstream = .error e) ↔
      (∃ e, upstream = .error e) ∨ upstream = .ok none ∨ upstream = .ok (some none)) ∧
    (∀ j, upstream = .ok (some (some j)) → detectMarkerCoordinates upstream = .ok j) := by
  rcases upstream with e | (_ | (_ | j)) <;>
    constructor <;> simp [detectMarkerCoordinates]

/-- Witness for C9's amended theorem: a parsed JSON `null` is returned
unchanged by a successful detection. -/
theorem detect_error_amended_witness :
    detectMarkerCoordinates (.ok (some (some Json.null))) = .ok Json.null :=
  (detect_error_amended (.ok (some (some Json.null)))).2 Json.null rfl

/-- Claim C10: when at least one manual marker entry is set, generation
renders the (possibly incomplete) manual map directly into exactly one
raster with zero AI detection calls; the 3-call detection batch runs
only when every manual entry is absent. -/
theorem manual_dispatch (w h : Nat) (mimeType : String) (c : MarkerCoordinates)
    (det1 det2 det3 : Except String MarkerCoordinates) :
    (hasManualMarkers c = true ↔ c.m1.isSome ∨ c.mA.isSome ∨ c.m2.isSome) ∧
    (hasManualMarkers c = true →
      (handleGenerate w h mimeType c det1 det2 det3).results =
          .ok [drawWiringOnCanvas w h c defaultStyles mimeType] ∧
      (handleGenerate w h mimeType c det1 det2 det3).detectionCalls = 0) ∧
    (hasManualMarkers c = false →
      (handleGenerate w h mimeType c det1 det2 det3).results =
          generateWiringDiagramsBatch w h mimeType defaultStyles [det1, det2, det3] ∧
      (handleGenerate w h mimeType c det1 det2 det3).detectionCalls = 3) := by
  refine ⟨?_, fun hm => ?_, fun hm => ?_⟩
  · simp [hasManualMarkers]
  · constructor <;> simp [handleGenerate, hm, generateManualWiringDiagram]
  · constructor <;> simp [handleGenerate, hm]

/-- Witness for C10's theorem: a map with only marker `"1"` placed makes
zero detection calls; an all-absent map issues the 3-call batch. -/
theorem manual_dispatch_witness :
    (handleGenerate 10 10 "image/png" ⟨some ⟨1, 2⟩, none, none⟩
        (Except.error "a") (Except.error "b") (Except.error "c")).detectionCalls = 0 ∧
    (handleGenerate 10 10 "image/png" ⟨none, none, none⟩
        (Except.ok ⟨none, none, none⟩) (Except.ok ⟨none, none, none⟩)
        (Except.ok ⟨none, none, none⟩)).detectionCalls = 3 :=
  ⟨((manual_dispatch 10 10 "image/png" ⟨some ⟨1, 2⟩, none, none⟩
      (Except.error "a") (Except.error "b") (Except.error "c")).2.1 rfl).2,
   ((manual_dispatch 10 10 "image/png" ⟨none, none, none⟩
      (Except.ok ⟨none, none, none⟩) (Except.ok ⟨none, none, none⟩)
      (Except.ok ⟨none, none, none⟩)).2.2 rfl).2⟩
